import Mathlib

/-
Verification of the MCP-TEST function app.

The repository has two Python modules, `function_app.py` (trigger-bound
variant) and `old_function_app.py` (legacy HTTP-routed variant).  Each is
shallowly embedded below in its own namespace (`FunctionApp`,
`OldFunctionApp`), over a common model of the Python/JSON runtime:

  * `Json` models values produced by Python `json.loads`;
  * `Json.truthy` models Python truthiness of such values;
  * `pyOr` models the Python `or` operator on those values;
  * `dictGet`/`dictGetD` model `d.get(k)`/`d.get(k, default)`, raising
    `AttributeError` when the receiver is not a dict;
  * `pyGetItem0` models `x[0]`;
  * `pyStr` models Python `str()` on JSON-decoded values;
  * `Except PyErr` models normal return vs. an uncaught Python exception.

External effects are made explicit parameters: the outcome of the
`requests.get` call is an `Upstream` value (exception / non-JSON body /
decoded JSON body), the trigger context string is represented by its parse
outcome (`Ctx`), and the current local clock reading
(`datetime.datetime.now().isoformat()`) is a string parameter.  The
`json.dumps(..., ensure_ascii=False)` serialization step at the very edge
of each entrypoint is modelled by returning the mapping itself.
-/

/-- JSON values as produced by Python `json.loads`: `null`, booleans,
numbers, strings, arrays, and objects (ordered key/value pairs, with the
last binding of a repeated key winning, as in a Python dict built by the
decoder). -/
inductive Json where
  | null : Json
  | bool : Bool → Json
  | num  : Int → Json
  | str  : String → Json
  | arr  : List Json → Json
  | obj  : List (String × Json) → Json

/-- Lookup in an object's binding list: the value of the LAST binding of
the key, matching the contents of the dict `json.loads` builds. -/
def assocLast (l : List (String × Json)) (k : String) : Option Json :=
  List.foldl (fun acc p => if p.1 = k then some p.2 else acc) Option.none l

/-- Python truthiness of a JSON-decoded value: `None`, `False`, `0`, `""`,
`[]` and the empty dict are falsy, everything else is truthy. -/
def Json.truthy : Json → Bool
  | Json.null => false
  | Json.bool b => b
  | Json.num n => n != 0
  | Json.str s => s != ""
  | Json.arr l => !l.isEmpty
  | Json.obj l => !l.isEmpty

/-- Field lookup on a JSON value; `none` when the value is not an object
or lacks the key. -/
def Json.lookup : Json → String → Option Json
  | Json.obj l, k => assocLast l k
  | _, _ => Option.none

/-- Whether a JSON value is an object carrying the given key. -/
def Json.hasKey (j : Json) (k : String) : Bool :=
  (j.lookup k).isSome

/-- The Python `or` operator on JSON-decoded values: the left operand if
truthy, otherwise the right operand. -/
def pyOr (a b : Json) : Json :=
  if a.truthy then a else b

/-- Python `v == "s"` for a string literal `s`: true exactly when `v` is
the equal string (no other JSON value compares equal to a `str`). -/
def pyEqStr (v : Json) (s : String) : Bool :=
  match v with
  | Json.str t => t == s
  | _ => false

/-- Uncaught Python exceptions that the embedded code can raise. -/
inductive PyErr where
  | attributeError
  | typeError
  | indexError
  | keyError
deriving DecidableEq

/-- Python `d.get(k)`: `None` when the key is absent; raises
`AttributeError` when the receiver is not a dict. -/
def dictGet : Json → String → Except PyErr Json
  | Json.obj l, k => Except.ok (Option.getD (assocLast l k) Json.null)
  | _, _ => Except.error PyErr.attributeError

/-- Python `d.get(k, default)`: the default when the key is absent; raises
`AttributeError` when the receiver is not a dict. -/
def dictGetD : Json → String → Json → Except PyErr Json
  | Json.obj l, k, d => Except.ok (Option.getD (assocLast l k) d)
  | _, _, _ => Except.error PyErr.attributeError

/-- Python `x[0]` on a JSON-decoded value: head of a non-empty list, first
character of a non-empty string, and the appropriate exception otherwise. -/
def pyGetItem0 : Json → Except PyErr Json
  | Json.arr [] => Except.error PyErr.indexError
  | Json.arr (x :: _) => Except.ok x
  | Json.str s => if s.isEmpty then Except.error PyErr.indexError else Except.ok (Json.str (s.take 1))
  | Json.obj _ => Except.error PyErr.keyError
  | _ => Except.error PyErr.typeError

mutual

/-- Python `repr()` of a JSON-decoded value (string escaping inside
reprs is not modelled beyond quoting). -/
def pyRepr : Json → String
  | Json.null => "None"
  | Json.bool true => "True"
  | Json.bool false => "False"
  | Json.num n => toString n
  | Json.str s => "\x27" ++ s ++ "\x27"
  | Json.arr l => "[" ++ pyReprList l ++ "]"
  | Json.obj l => "\x7b" ++ pyReprPairs l ++ "\x7d"

/-- Comma-separated reprs of list elements. -/
def pyReprList : List Json → String
  | [] => ""
  | [x] => pyRepr x
  | x :: y :: rest => pyRepr x ++ ", " ++ pyReprList (y :: rest)

/-- Comma-separated reprs of dict entries. -/
def pyReprPairs : List (String × Json) → String
  | [] => ""
  | [(k, v)] => "\x27" ++ k ++ "\x27: " ++ pyRepr v
  | (k, v) :: y :: rest => "\x27" ++ k ++ "\x27: " ++ pyRepr v ++ ", " ++ pyReprPairs (y :: rest)

end

/-- Python `str()` of a JSON-decoded value: the string itself for strings,
the repr otherwise (as interpolated by an f-string). -/
def pyStr : Json → String
  | Json.str s => s
  | Json.null => pyRepr Json.null
  | Json.bool b => pyRepr (Json.bool b)
  | Json.num n => pyRepr (Json.num n)
  | Json.arr l => pyRepr (Json.arr l)
  | Json.obj l => pyRepr (Json.obj l)

/-- Outcome of the single `requests.get(WEATHER_ENDPOINT, timeout=5)` call
followed by `raise_for_status()` and `response.json()`:
`netError exc` models a raised `requests.RequestException` (connection
error, timeout, or non-2xx status) with `str(exc) = exc`; `nonJson` models
a 2xx response whose body is not valid JSON (`response.json()` raises
`ValueError`); `body j` models a 2xx response whose body decodes to `j`. -/
inductive Upstream where
  | netError (exc : String)
  | nonJson
  | body (payload : Json)

/-- The trigger context string, represented by its `json.loads` outcome:
`empty` is the empty string (falsy, so `context or "\x7b\x7d"` parses the
literal empty-object text), `invalid` is a non-empty string on which
`json.loads` raises `JSONDecodeError`, and `parsed j` is a non-empty
string decoding to `j`. -/
inductive Ctx where
  | empty
  | invalid
  | parsed (payload : Json)

namespace FunctionApp

/-- `WEATHER_ENDPOINT` from `function_app.py`. -/
def WEATHER_ENDPOINT : String := "https://weather.tsukumijima.net/api/forecast/city/230010"

/-- `_load_arguments` from `function_app.py`:
`json.loads(context or "\x7b\x7d")`, catching only `JSONDecodeError`, then
`payload.get("arguments", \x7b\x7d) or \x7b\x7d`. -/
def _load_arguments (context : Ctx) : Except PyErr Json :=
  match context with
  | Ctx.invalid => Except.ok (Json.obj [])
  | Ctx.empty =>
      match dictGetD (Json.obj []) "arguments" (Json.obj []) with
      | Except.error e => Except.error e
      | Except.ok a => Except.ok (pyOr a (Json.obj []))
  | Ctx.parsed payload =>
      match dictGetD payload "arguments" (Json.obj []) with
      | Except.error e => Except.error e
      | Except.ok a => Except.ok (pyOr a (Json.obj []))

/-- `_health_check` from `function_app.py`. -/
def _health_check : Json :=
  Json.obj [("tool", Json.str "health_check"), ("status", Json.str "ok")]

/-- `_fetch_nagoya_weather` from `function_app.py`, as a function of the
upstream call's outcome. -/
def _fetch_nagoya_weather : Upstream → Except PyErr Json
  | Upstream.netError exc =>
      Except.ok (Json.obj [("tool", Json.str "nagoya_weather"), ("status", Json.str "error"),
        ("message", Json.str "天気情報の取得に失敗しました。"), ("details", Json.str exc)])
  | Upstream.nonJson =>
      Except.ok (Json.obj [("tool", Json.str "nagoya_weather"), ("status", Json.str "error"),
        ("message", Json.str "天気情報の読み取りに失敗しました。")])
  | Upstream.body payload =>
      match dictGet payload "forecasts" with
      | Except.error e => Except.error e
      | Except.ok f0 =>
        if (pyOr f0 (Json.arr [])).truthy = false then
          Except.ok (Json.obj [("tool", Json.str "nagoya_weather"), ("status", Json.str "error"),
            ("message", Json.str "天気情報が空でした。")])
        else
          match pyGetItem0 (pyOr f0 (Json.arr [])) with
          | Except.error e => Except.error e
          | Except.ok today =>
            match dictGet today "detail" with
            | Except.error e => Except.error e
            | Except.ok d0 =>
              match dictGet (pyOr d0 (Json.obj [])) "weather" with
              | Except.error e => Except.error e
              | Except.ok w1 =>
                match (if w1.truthy then Except.ok w1
                       else match dictGet today "telop" with
                            | Except.error e => Except.error e
                            | Except.ok t1 => Except.ok (pyOr t1 (Json.str "天気不明"))) with
                | Except.error e => Except.error e
                | Except.ok weather =>
                  match dictGet payload "publicTime" with
                  | Except.error e => Except.error e
                  | Except.ok p1 =>
                    match (if p1.truthy then Except.ok p1
                           else dictGet payload "publicTimeFormatted") with
                    | Except.error e => Except.error e
                    | Except.ok updated =>
                      Except.ok (Json.obj [("tool", Json.str "nagoya_weather"),
                        ("status", Json.str "ok"), ("city", Json.str "名古屋"),
                        ("weather", weather), ("updated_at", updated),
                        ("source", Json.str WEATHER_ENDPOINT)])

/-- The `health_check` trigger entrypoint from `function_app.py` (the
`json.dumps` edge is modelled as returning the mapping itself; the
non-empty-arguments warning is only logging). -/
def health_check (context : Ctx) : Except PyErr Json :=
  match _load_arguments context with
  | Except.error e => Except.error e
  | Except.ok _a => Except.ok _health_check

/-- The `nagoya_weather` trigger entrypoint from `function_app.py`:
loads the arguments, reads the (ignored) `unit` argument, and returns the
weather result. -/
def nagoya_weather (u : Upstream) (context : Ctx) : Except PyErr Json :=
  match _load_arguments context with
  | Except.error e => Except.error e
  | Except.ok args =>
    match dictGet args "unit" with
    | Except.error e => Except.error e
    | Except.ok _unit => _fetch_nagoya_weather u

end FunctionApp

/-- The HTTP method of a request to the legacy route (only GET and POST
are registered). -/
inductive Method where
  | get
  | post

/-- An `azure.functions.HttpRequest` as the legacy entrypoint consumes it:
the method, and the outcome of `req.get_json()` (`none` models the
`ValueError` raised on a body that is not valid JSON). -/
structure HttpRequest where
  method : Method
  jsonBody : Option Json

/-- An `azure.functions.HttpResponse` built by `_json_response`: status
code plus the JSON payload (the `json.dumps` edge is modelled by carrying
the payload itself). -/
structure HttpResponse where
  status_code : Nat
  body : Json

namespace OldFunctionApp

/-- `MCP_ROUTE` from `old_function_app.py`. -/
def MCP_ROUTE : String := "mcp"

/-- `WEATHER_ENDPOINT` from `old_function_app.py`. -/
def WEATHER_ENDPOINT : String := "https://weather.tsukumijima.net/api/forecast/city/230010"

/-- `RESOURCE_URI` from `old_function_app.py`. -/
def RESOURCE_URI : String := "https://www.musashi.co.jp/company/message.html"

/-- `_json_response` from `old_function_app.py` (the Python default
`status_code=200` is passed explicitly at each call site below). -/
def _json_response (payload : Json) (status_code : Nat) : HttpResponse :=
  HttpResponse.mk status_code payload

/-- `_build_capabilities` from `old_function_app.py`: the static
capabilities document. -/
def _build_capabilities : Json :=
  Json.obj [
    ("protocol", Json.str "model-context-protocol/1.0"),
    ("tools", Json.arr [
      Json.obj [
        ("name", Json.str "health_check"),
        ("description", Json.str "疎通確認用のツール。引数なしで呼び出し可。"),
        ("inputSchema", Json.obj [("type", Json.str "object"),
          ("properties", Json.obj []), ("additionalProperties", Json.bool false)])],
      Json.obj [
        ("name", Json.str "nagoya_weather"),
        ("description", Json.str "日本の公開天気予報APIから名古屋の最新天気を取得。"),
        ("inputSchema", Json.obj [("type", Json.str "object"),
          ("properties", Json.obj []), ("additionalProperties", Json.bool false)])]]),
    ("resources", Json.arr [
      Json.obj [
        ("name", Json.str "musashi_message"),
        ("uri", Json.str RESOURCE_URI),
        ("description", Json.str "回答時に準拠する企業メッセージ。"),
        ("mimeType", Json.str "text/html")]]),
    ("prompts", Json.arr [
      Json.obj [
        ("name", Json.str "resource_aligned_reply"),
        ("description", Json.str "リソースに準拠した応答を指示。"),
        ("content", Json.str ("回答は常にリソースの内容と整合させること。" ++
          " 事実はリソース由来であると明示し、無根拠な補完は避ける。" ++
          " 足りない情報は不足として伝える。"))]]),
    ("usage", Json.obj [
      ("invoke", Json.obj [
        ("method", Json.str "POST"),
        ("route", Json.str ("/api/" ++ MCP_ROUTE)),
        ("body", Json.obj [("tool", Json.str "tool name"), ("arguments", Json.obj [])])]),
      ("discovery", Json.obj [
        ("method", Json.str "GET"),
        ("route", Json.str ("/api/" ++ MCP_ROUTE))])])]

/-- `_health_check` from `old_function_app.py`; `now` is the value of
`datetime.datetime.now().isoformat()` (the local clock reading), to which
the code appends a literal "Z" without any UTC conversion. -/
def _health_check (now : String) : Json :=
  Json.obj [("tool", Json.str "health_check"), ("status", Json.str "ok"),
    ("timestamp", Json.str (now ++ "Z"))]

/-- `_fetch_nagoya_weather` from `old_function_app.py`, as a function of
the upstream call's outcome (textually the same code as the variant in
`function_app.py`). -/
def _fetch_nagoya_weather : Upstream → Except PyErr Json
  | Upstream.netError exc =>
      Except.ok (Json.obj [("tool", Json.str "nagoya_weather"), ("status", Json.str "error"),
        ("message", Json.str "天気情報の取得に失敗しました。"), ("details", Json.str exc)])
  | Upstream.nonJson =>
      Except.ok (Json.obj [("tool", Json.str "nagoya_weather"), ("status", Json.str "error"),
        ("message", Json.str "天気情報の読み取りに失敗しました。")])
  | Upstream.body payload =>
      match dictGet payload "forecasts" with
      | Except.error e => Except.error e
      | Except.ok f0 =>
        if (pyOr f0 (Json.arr [])).truthy = false then
          Except.ok (Json.obj [("tool", Json.str "nagoya_weather"), ("status", Json.str "error"),
            ("message", Json.str "天気情報が空でした。")])
        else
          match pyGetItem0 (pyOr f0 (Json.arr [])) with
          | Except.error e => Except.error e
          | Except.ok today =>
            match dictGet today "detail" with
            | Except.error e => Except.error e
            | Except.ok d0 =>
              match dictGet (pyOr d0 (Json.obj [])) "weather" with
              | Except.error e => Except.error e
              | Except.ok w1 =>
                match (if w1.truthy then Except.ok w1
                       else match dictGet today "telop" with
                            | Except.error e => Except.error e
                            | Except.ok t1 => Except.ok (pyOr t1 (Json.str "天気不明"))) with
                | Except.error e => Except.error e
                | Except.ok weather =>
                  match dictGet payload "publicTime" with
                  | Except.error e => Except.error e
                  | Except.ok p1 =>
                    match (if p1.truthy then Except.ok p1
                           else dictGet payload "publicTimeFormatted") with
                    | Except.error e => Except.error e
                    | Except.ok updated =>
                      Except.ok (Json.obj [("tool", Json.str "nagoya_weather"),
                        ("status", Json.str "ok"), ("city", Json.str "名古屋"),
                        ("weather", weather), ("updated_at", updated),
                        ("source", Json.str WEATHER_ENDPOINT)])

/-- `mcp_entrypoint` from `old_function_app.py`, as a function of the
upstream-call outcome, the local clock reading and the request.  GET
returns the capabilities document; POST parses the body, requires a truthy
`tool` field, dispatches by exact string comparison, and otherwise returns
a 400 whose message interpolates the unknown tool value (f-string). -/
def mcp_entrypoint (u : Upstream) (now : String) (req : HttpRequest) : Except PyErr HttpResponse :=
  match req.method with
  | Method.get => Except.ok (_json_response _build_capabilities 200)
  | Method.post =>
    match req.jsonBody with
    | Option.none =>
        Except.ok (_json_response (Json.obj [("error", Json.str "JSON bodyが必要です。")]) 400)
    | Option.some payload =>
      match dictGet payload "tool" with
      | Except.error e => Except.error e
      | Except.ok tool =>
        if tool.truthy = false then
          Except.ok (_json_response
            (Json.obj [("error", Json.str "toolフィールドを指定してください。")]) 400)
        else if pyEqStr tool "health_check" then
          Except.ok (_json_response (_health_check now) 200)
        else if pyEqStr tool "nagoya_weather" then
          match _fetch_nagoya_weather u with
          | Except.error e => Except.error e
          | Except.ok r => Except.ok (_json_response r 200)
        else
          Except.ok (_json_response
            (Json.obj [("error", Json.str ("未知のツールです: " ++ pyStr tool))]) 400)

end OldFunctionApp

/-
Specification-side definitions: the spec's fallback wording and result-shape
vocabulary, used to state the claims.
-/

/-- The spec's weather fallback order for a forecast entry `ft` whose
`detail` resolved to the object `dt`: `detail.weather`, then `telop`, then
the literal "天気不明", a field counting as absent when falsy. -/
def resolveWeather (ft dt : List (String × Json)) : Json :=
  let wv := Option.getD (assocLast dt "weather") Json.null
  if wv.truthy then wv
  else
    let tv := Option.getD (assocLast ft "telop") Json.null
    if tv.truthy then tv else Json.str "天気不明"

/-- The spec's `updated_at` fallback order for a payload `pl`:
`publicTime` when truthy, otherwise the raw `publicTimeFormatted` value
(null when that key is absent). -/
def resolveUpdated (pl : List (String × Json)) : Json :=
  let p1 := Option.getD (assocLast pl "publicTime") Json.null
  if p1.truthy then p1 else Option.getD (assocLast pl "publicTimeFormatted") Json.null

/-- Whether a result's `status` field equals the given string. -/
def statusIs (r : Json) (s : String) : Bool :=
  match r.lookup "status" with
  | some v => pyEqStr v s
  | none => false

/-- The spec's ToolResult shape for the Weather Tool: a mapping whose
`tool` field is the string "nagoya_weather", whose `status` is "ok" or
"error", with a `message` field on error results and the weather-specific
fields (`city`, `weather`, `updated_at`, `source`) on ok results. -/
def weatherResultOk (r : Json) : Bool :=
  (match r.lookup "tool" with
   | some v => pyEqStr v "nagoya_weather"
   | none => false)
  && (statusIs r "ok" || statusIs r "error")
  && (!(statusIs r "error") || r.hasKey "message")
  && (!(statusIs r "ok") ||
      (r.hasKey "city" && r.hasKey "weather" && r.hasKey "updated_at" && r.hasKey "source"))

/-- The spec's ToolResult shape for the primary variant's Health Tool: a
mapping whose `tool` field is the string "health_check", whose `status` is
"ok" or "error", with a `message` field on error results (the primary
health result has no tool-specific fields; `timestamp` is legacy-only). -/
def healthResultOk (r : Json) : Bool :=
  (match r.lookup "tool" with
   | some v => pyEqStr v "health_check"
   | none => false)
  && (statusIs r "ok" || statusIs r "error")
  && (!(statusIs r "error") || r.hasKey "message")

/-- The spec's ToolResult shape for the legacy variant's Health Tool: the
health shape, with the legacy tool-specific `timestamp` field required on
ok results. -/
def legacyHealthResultOk (r : Json) : Bool :=
  (match r.lookup "tool" with
   | some v => pyEqStr v "health_check"
   | none => false)
  && (statusIs r "ok" || statusIs r "error")
  && (!(statusIs r "error") || r.hasKey "message")
  && (!(statusIs r "ok") || r.hasKey "timestamp")

/-- The number of entries declared under the key `k` of a capabilities
document (e.g. its `tools`, `resources` or `prompts` array). -/
def declaredCount (doc : Json) (k : String) : Option Nat :=
  match doc.lookup k with
  | some (Json.arr ts) => some ts.length
  | _ => Option.none

/-- The `name` field of each tool declared by a capabilities document. -/
def declaredToolNames (doc : Json) : Option (List (Option Json)) :=
  match doc.lookup "tools" with
  | some (Json.arr ts) => some (ts.map (fun t => t.lookup "name"))
  | _ => Option.none

/-- The `inputSchema.properties` object of each tool declared by a
capabilities document. -/
def declaredToolProperties (doc : Json) : Option (List (Option Json)) :=
  match doc.lookup "tools" with
  | some (Json.arr ts) =>
      some (ts.map (fun t => Option.bind (t.lookup "inputSchema") (fun s => s.lookup "properties")))
  | _ => Option.none

/-- The entry of a capabilities document's `usage` block for the given
operation. -/
def usageEntry (doc : Json) (op : String) : Option Json :=
  match doc.lookup "usage" with
  | some usage => usage.lookup op
  | Option.none => Option.none

/-
Helper lemmas shared by the claim theorems.
-/

/-- Exact result of the weather fetch on a payload whose `forecasts` is a
non-empty array headed by an object `ft` whose `detail` resolves (through
the code's `or \x7b\x7d`) to an object `dt`. -/
theorem fetch_success_eq (pl ft dt : List (String × Json)) (rest : List Json)
    (hf : assocLast pl "forecasts" = some (Json.arr (Json.obj ft :: rest)))
    (hd : pyOr (Option.getD (assocLast ft "detail") Json.null) (Json.obj []) = Json.obj dt) :
    FunctionApp._fetch_nagoya_weather (Upstream.body (Json.obj pl))
      = Except.ok (Json.obj [("tool", Json.str "nagoya_weather"), ("status", Json.str "ok"),
          ("city", Json.str "名古屋"), ("weather", resolveWeather ft dt),
          ("updated_at", resolveUpdated pl), ("source", Json.str FunctionApp.WEATHER_ENDPOINT)]) := by
  have harr : ∀ (x : Json) (l : List Json), (Json.arr (x :: l)).truthy = true := fun x l => rfl
  have hd2 : (if ((assocLast ft "detail").getD Json.null).truthy = true
      then (assocLast ft "detail").getD Json.null else Json.obj []) = Json.obj dt := by
    simpa [pyOr] using hd
  cases hw : ((assocLast dt "weather").getD Json.null).truthy <;>
  cases hp : ((assocLast pl "publicTime").getD Json.null).truthy <;>
  simp [FunctionApp._fetch_nagoya_weather, dictGet, hf, pyOr, hd2, pyGetItem0,
        resolveWeather, resolveUpdated, hw, hp, harr]

/-- Every normally returned weather result has the spec's ToolResult
shape. -/
theorem fetch_ok_wf (u : Upstream) (r : Json)
    (h : FunctionApp._fetch_nagoya_weather u = Except.ok r) : weatherResultOk r = true := by
  cases u with
  | netError exc =>
      simp only [FunctionApp._fetch_nagoya_weather] at h
      injection h with h2
      subst h2
      rfl
  | nonJson =>
      simp only [FunctionApp._fetch_nagoya_weather] at h
      injection h with h2
      subst h2
      rfl
  | body payload =>
      simp only [FunctionApp._fetch_nagoya_weather] at h
      repeat' (split at h)
      all_goals first
        | (injection h with h2; subst h2; rfl)
        | (simp at h)

/-- The two weather implementations are the same function of the upstream
outcome. -/
theorem fetch_agree (u : Upstream) :
    OldFunctionApp._fetch_nagoya_weather u = FunctionApp._fetch_nagoya_weather u := rfl

/-
The claims.
-/

/-- C1: In both variants, a failed network call yields exactly the error
result with message "天気情報の取得に失敗しました。" and a `details` field equal
to the stringified exception, while a non-JSON body yields exactly the
error result with message "天気情報の読み取りに失敗しました。" and no `details`
field; the two results are distinct. -/
theorem claim_C1_failure_modes (exc : String) :
    (FunctionApp._fetch_nagoya_weather (Upstream.netError exc)
        = Except.ok (Json.obj [("tool", Json.str "nagoya_weather"), ("status", Json.str "error"),
            ("message", Json.str "天気情報の取得に失敗しました。"), ("details", Json.str exc)]))
  ∧ (FunctionApp._fetch_nagoya_weather Upstream.nonJson
        = Except.ok (Json.obj [("tool", Json.str "nagoya_weather"), ("status", Json.str "error"),
            ("message", Json.str "天気情報の読み取りに失敗しました。")]))
  ∧ (OldFunctionApp._fetch_nagoya_weather (Upstream.netError exc)
        = Except.ok (Json.obj [("tool", Json.str "nagoya_weather"), ("status", Json.str "error"),
            ("message", Json.str "天気情報の取得に失敗しました。"), ("details", Json.str exc)]))
  ∧ (OldFunctionApp._fetch_nagoya_weather Upstream.nonJson
        = Except.ok (Json.obj [("tool", Json.str "nagoya_weather"), ("status", Json.str "error"),
            ("message", Json.str "天気情報の読み取りに失敗しました。")]))
  ∧ ((Json.obj [("tool", Json.str "nagoya_weather"), ("status", Json.str "error"),
        ("message", Json.str "天気情報の読み取りに失敗しました。")]).hasKey "details" = false)
  ∧ ((Json.obj [("tool", Json.str "nagoya_weather"), ("status", Json.str "error"),
        ("message", Json.str "天気情報の取得に失敗しました。"), ("details", Json.str exc)]).hasKey "details"
        = true)
  ∧ (Json.obj [("tool", Json.str "nagoya_weather"), ("status", Json.str "error"),
        ("message", Json.str "天気情報の取得に失敗しました。"), ("details", Json.str exc)]
      ≠ Json.obj [("tool", Json.str "nagoya_weather"), ("status", Json.str "error"),
        ("message", Json.str "天気情報の読み取りに失敗しました。")]) := by
  refine ⟨rfl, rfl, rfl, rfl, rfl, rfl, ?_⟩
  simp

/-- C2 counterexample: a context string whose top-level JSON value is not
an object (here the JSON text "[]") makes the Argument Loader raise
`AttributeError` instead of returning a mapping. -/
theorem claim_C2_counterexample :
    FunctionApp._load_arguments (Ctx.parsed (Json.arr []))
      = Except.error PyErr.attributeError := rfl

/-- C2 (amended): for an empty context string, a non-JSON context string,
or a JSON-object context whose `arguments` value is absent, null, or
otherwise falsy, the Argument Loader returns the empty mapping without
raising; a JSON-object context whose `arguments` value is truthy returns
that value as-is (a mapping only when the value is itself an object). -/
theorem claim_C2_loader_empty :
    (∀ ctx : Ctx, (ctx = Ctx.empty ∨ ctx = Ctx.invalid ∨
        ∃ pl, ctx = Ctx.parsed (Json.obj pl)
          ∧ (Option.getD (assocLast pl "arguments") Json.null).truthy = false) →
      FunctionApp._load_arguments ctx = Except.ok (Json.obj []))
  ∧ (∀ (pl : List (String × Json)) (v : Json),
      assocLast pl "arguments" = some v → v.truthy = true →
      FunctionApp._load_arguments (Ctx.parsed (Json.obj pl)) = Except.ok v) := by
  constructor
  · intro ctx h
    rcases h with h | h | ⟨pl, h, hfalsy⟩
    · subst h; rfl
    · subst h; rfl
    · subst h
      cases hv : assocLast pl "arguments" with
      | none => simp [FunctionApp._load_arguments, dictGetD, hv, pyOr, Json.truthy]
      | some v =>
          rw [hv] at hfalsy
          simp [FunctionApp._load_arguments, dictGetD, hv, pyOr, Option.getD] at hfalsy ⊢
          simp [hfalsy]
  · intro pl v hv htrue
    simp [FunctionApp._load_arguments, dictGetD, hv, pyOr, Option.getD, htrue]

theorem claim_C2_witness :
    (FunctionApp._load_arguments (Ctx.parsed (Json.obj [("arguments", Json.null)]))
        = Except.ok (Json.obj []))
  ∧ (FunctionApp._load_arguments (Ctx.parsed (Json.obj [("arguments", Json.str "x")]))
        = Except.ok (Json.str "x")) :=
  ⟨claim_C2_loader_empty.1 (Ctx.parsed (Json.obj [("arguments", Json.null)]))
      (Or.inr (Or.inr ⟨[("arguments", Json.null)], rfl, rfl⟩)),
   claim_C2_loader_empty.2 [("arguments", Json.str "x")] (Json.str "x") rfl rfl⟩

/-- C3 counterexample: a POST whose body is valid JSON but not an object
(here the JSON text "[]") makes the legacy entrypoint raise
`AttributeError` (an unhandled exception, surfaced as a 500) instead of
returning a 400 response. -/
theorem claim_C3_counterexample :
    OldFunctionApp.mcp_entrypoint Upstream.nonJson "2024-01-01T00:00:00"
        (HttpRequest.mk Method.post (Option.some (Json.arr [])))
      = Except.error PyErr.attributeError := rfl

/-- C3 (amended): for POSTs to the route, a non-JSON body yields 400 with
the fixed error body; a JSON-object body with a missing or falsy `tool`
yields 400 with the fixed error body; a JSON-object body with an
unrecognized non-empty string `tool` yields 400 with an error message
mentioning that tool name; an exact match dispatches, returning 200 with
the health result or, when the weather fetch returns normally, 200 with
its result.  (A valid-JSON body whose top level is not an object instead
raises, per the counterexample.) -/
theorem claim_C3_dispatch (u : Upstream) (now : String) :
    (OldFunctionApp.mcp_entrypoint u now (HttpRequest.mk Method.post Option.none)
        = Except.ok (HttpResponse.mk 400 (Json.obj [("error", Json.str "JSON bodyが必要です。")])))
  ∧ (∀ pl, (Option.getD (assocLast pl "tool") Json.null).truthy = false →
      OldFunctionApp.mcp_entrypoint u now (HttpRequest.mk Method.post (Option.some (Json.obj pl)))
        = Except.ok (HttpResponse.mk 400
            (Json.obj [("error", Json.str "toolフィールドを指定してください。")])))
  ∧ (∀ pl s, assocLast pl "tool" = some (Json.str s) →
      s ≠ "" → s ≠ "health_check" → s ≠ "nagoya_weather" →
      OldFunctionApp.mcp_entrypoint u now (HttpRequest.mk Method.post (Option.some (Json.obj pl)))
        = Except.ok (HttpResponse.mk 400
            (Json.obj [("error", Json.str ("未知のツールです: " ++ s))])))
  ∧ (∀ pl, assocLast pl "tool" = some (Json.str "health_check") →
      OldFunctionApp.mcp_entrypoint u now (HttpRequest.mk Method.post (Option.some (Json.obj pl)))
        = Except.ok (HttpResponse.mk 200 (OldFunctionApp._health_check now)))
  ∧ (∀ pl r, assocLast pl "tool" = some (Json.str "nagoya_weather") →
      OldFunctionApp._fetch_nagoya_weather u = Except.ok r →
      OldFunctionApp.mcp_entrypoint u now (HttpRequest.mk Method.post (Option.some (Json.obj pl)))
        = Except.ok (HttpResponse.mk 200 r)) := by
  refine ⟨rfl, ?_, ?_, ?_, ?_⟩
  · intro pl ht
    simp [OldFunctionApp.mcp_entrypoint, dictGet, ht, OldFunctionApp._json_response]
  · intro pl s hs hne hh hw
    simp [OldFunctionApp.mcp_entrypoint, dictGet, hs, Json.truthy, pyEqStr, pyStr,
      OldFunctionApp._json_response, hne, hh, hw]
  · intro pl hs
    simp [OldFunctionApp.mcp_entrypoint, dictGet, hs, Json.truthy, pyEqStr,
      OldFunctionApp._json_response]
  · intro pl r hs hr
    simp [OldFunctionApp.mcp_entrypoint, dictGet, hs, Json.truthy, pyEqStr, hr,
      OldFunctionApp._json_response]

theorem claim_C3_witness :
    OldFunctionApp.mcp_entrypoint Upstream.nonJson "2024-01-01T00:00:00"
        (HttpRequest.mk Method.post (Option.some (Json.obj [("tool", Json.str "bogus")])))
      = Except.ok (HttpResponse.mk 400
          (Json.obj [("error", Json.str ("未知のツールです: " ++ "bogus"))])) :=
  (claim_C3_dispatch Upstream.nonJson "2024-01-01T00:00:00").2.2.1
    [("tool", Json.str "bogus")] "bogus" rfl (by decide) (by decide) (by decide)

/-- C4: for an upstream JSON object whose `forecasts` array is non-empty
(its first element being a forecast object, with `detail` resolving to an
object as the upstream interface prescribes), the result is the ok mapping
with city 名古屋, the weather resolved by the detail.weather → telop →
"天気不明" fallback, the updated_at resolved by the publicTime →
publicTimeFormatted → null fallback, and the fixed upstream URL as source. -/
theorem claim_C4_success_shape (pl ft dt : List (String × Json)) (rest : List Json)
    (hf : assocLast pl "forecasts" = some (Json.arr (Json.obj ft :: rest)))
    (hd : pyOr (Option.getD (assocLast ft "detail") Json.null) (Json.obj []) = Json.obj dt) :
    FunctionApp._fetch_nagoya_weather (Upstream.body (Json.obj pl))
      = Except.ok (Json.obj [("tool", Json.str "nagoya_weather"), ("status", Json.str "ok"),
          ("city", Json.str "名古屋"), ("weather", resolveWeather ft dt),
          ("updated_at", resolveUpdated pl), ("source", Json.str FunctionApp.WEATHER_ENDPOINT)]) :=
  fetch_success_eq pl ft dt rest hf hd

theorem claim_C4_witness :
    FunctionApp._fetch_nagoya_weather (Upstream.body (Json.obj
        [("forecasts", Json.arr [Json.obj [("detail", Json.obj [("weather", Json.str "晴れ")])]]),
         ("publicTime", Json.str "2024-01-01T00:00:00+09:00")]))
      = Except.ok (Json.obj [("tool", Json.str "nagoya_weather"), ("status", Json.str "ok"),
          ("city", Json.str "名古屋"), ("weather", Json.str "晴れ"),
          ("updated_at", Json.str "2024-01-01T00:00:00+09:00"),
          ("source", Json.str FunctionApp.WEATHER_ENDPOINT)]) :=
  claim_C4_success_shape
    [("forecasts", Json.arr [Json.obj [("detail", Json.obj [("weather", Json.str "晴れ")])]]),
     ("publicTime", Json.str "2024-01-01T00:00:00+09:00")]
    [("detail", Json.obj [("weather", Json.str "晴れ")])]
    [("weather", Json.str "晴れ")] [] rfl rfl

/-- C5: in both variants, an upstream JSON object whose `forecasts` field
is absent, null, or the empty array yields exactly the error result with
message "天気情報が空でした。", which contains no `weather` field. -/
theorem claim_C5_empty_forecasts (pl : List (String × Json))
    (hf : assocLast pl "forecasts" = Option.none
        ∨ assocLast pl "forecasts" = some Json.null
        ∨ assocLast pl "forecasts" = some (Json.arr [])) :
    (FunctionApp._fetch_nagoya_weather (Upstream.body (Json.obj pl))
        = Except.ok (Json.obj [("tool", Json.str "nagoya_weather"), ("status", Json.str "error"),
            ("message", Json.str "天気情報が空でした。")]))
  ∧ (OldFunctionApp._fetch_nagoya_weather (Upstream.body (Json.obj pl))
        = Except.ok (Json.obj [("tool", Json.str "nagoya_weather"), ("status", Json.str "error"),
            ("message", Json.str "天気情報が空でした。")]))
  ∧ ((Json.obj [("tool", Json.str "nagoya_weather"), ("status", Json.str "error"),
        ("message", Json.str "天気情報が空でした。")]).hasKey "weather" = false) := by
  refine ⟨?_, ?_, rfl⟩ <;>
  · rcases hf with h | h | h <;>
      simp [FunctionApp._fetch_nagoya_weather, OldFunctionApp._fetch_nagoya_weather,
        dictGet, h, pyOr, Json.truthy]

theorem claim_C5_witness :
    (FunctionApp._fetch_nagoya_weather (Upstream.body (Json.obj [("forecasts", Json.arr [])]))
        = Except.ok (Json.obj [("tool", Json.str "nagoya_weather"), ("status", Json.str "error"),
            ("message", Json.str "天気情報が空でした。")]))
  ∧ (OldFunctionApp._fetch_nagoya_weather (Upstream.body (Json.obj [("forecasts", Json.arr [])]))
        = Except.ok (Json.obj [("tool", Json.str "nagoya_weather"), ("status", Json.str "error"),
            ("message", Json.str "天気情報が空でした。")]))
  ∧ ((Json.obj [("tool", Json.str "nagoya_weather"), ("status", Json.str "error"),
        ("message", Json.str "天気情報が空でした。")]).hasKey "weather" = false) :=
  claim_C5_empty_forecasts [("forecasts", Json.arr [])] (Or.inr (Or.inr rfl))

/-- C6: whatever argument mapping the loader produced, the primary
health entrypoint succeeds with exactly {tool: "health_check",
status: "ok"} and no `timestamp` field, while the legacy variant's result
additionally carries a `timestamp` equal to the local-clock ISO string
with a literal "Z" appended (no UTC conversion). -/
theorem claim_C6_health_ok (ctx : Ctx) (args : Json) (now : String)
    (h : FunctionApp._load_arguments ctx = Except.ok args) :
    (FunctionApp.health_check ctx
        = Except.ok (Json.obj [("tool", Json.str "health_check"), ("status", Json.str "ok")]))
  ∧ ((Json.obj [("tool", Json.str "health_check"), ("status", Json.str "ok")]).hasKey "timestamp"
        = false)
  ∧ (OldFunctionApp._health_check now
        = Json.obj [("tool", Json.str "health_check"), ("status", Json.str "ok"),
            ("timestamp", Json.str (now ++ "Z"))])
  ∧ ((OldFunctionApp._health_check now).hasKey "timestamp" = true) := by
  refine ⟨?_, rfl, rfl, rfl⟩
  simp [FunctionApp.health_check, h, FunctionApp._health_check]

theorem claim_C6_witness :
    (FunctionApp.health_check (Ctx.parsed (Json.obj [("arguments", Json.obj [("extra", Json.num 1)])]))
        = Except.ok (Json.obj [("tool", Json.str "health_check"), ("status", Json.str "ok")]))
  ∧ ((Json.obj [("tool", Json.str "health_check"), ("status", Json.str "ok")]).hasKey "timestamp"
        = false)
  ∧ (OldFunctionApp._health_check "2024-01-01T00:00:00"
        = Json.obj [("tool", Json.str "health_check"), ("status", Json.str "ok"),
            ("timestamp", Json.str ("2024-01-01T00:00:00" ++ "Z"))])
  ∧ ((OldFunctionApp._health_check "2024-01-01T00:00:00").hasKey "timestamp" = true) :=
  claim_C6_health_ok (Ctx.parsed (Json.obj [("arguments", Json.obj [("extra", Json.num 1)])]))
    (Json.obj [("extra", Json.num 1)]) "2024-01-01T00:00:00" rfl

/-- C7: on every branch and in both variants, every normally returned
weather result has `tool` "nagoya_weather", a `status` of "ok" or "error",
a `message` on error results and the weather fields on ok results; both
health results have `tool` "health_check" and status "ok"/"error", the
legacy one carrying its tool-specific `timestamp` field on ok results. -/
theorem claim_C7_wellformed :
    (∀ (u : Upstream) (r : Json),
        FunctionApp._fetch_nagoya_weather u = Except.ok r → weatherResultOk r = true)
  ∧ (∀ (u : Upstream) (r : Json),
        OldFunctionApp._fetch_nagoya_weather u = Except.ok r → weatherResultOk r = true)
  ∧ (healthResultOk FunctionApp._health_check = true)
  ∧ (∀ now : String, legacyHealthResultOk (OldFunctionApp._health_check now) = true) := by
  refine ⟨fetch_ok_wf, ?_, rfl, fun now => rfl⟩
  intro u r h
  exact fetch_ok_wf u r (fetch_agree u ▸ h)

theorem claim_C7_witness :
    weatherResultOk (Json.obj [("tool", Json.str "nagoya_weather"), ("status", Json.str "error"),
      ("message", Json.str "天気情報の読み取りに失敗しました。")]) = true :=
  claim_C7_wellformed.1 Upstream.nonJson
    (Json.obj [("tool", Json.str "nagoya_weather"), ("status", Json.str "error"),
      ("message", Json.str "天気情報の読み取りに失敗しました。")]) rfl

/-- C8: on every identical upstream outcome the primary and the legacy
weather implementations return equal results (they are the same function
of the upstream outcome). -/
theorem claim_C8_variants_equal (u : Upstream) :
    FunctionApp._fetch_nagoya_weather u = OldFunctionApp._fetch_nagoya_weather u := rfl

/-- C9: every GET to the route returns 200 with the capabilities document,
which declares exactly two tools named "health_check" and "nagoya_weather"
with empty-properties input schemas, exactly one resource (with name, URI,
description and MIME type "text/html"), one prompt, and a usage block
giving POST /api/mcp with body {tool, arguments} for invocation and
GET /api/mcp for discovery. -/
theorem claim_C9_capabilities (u : Upstream) (now : String) (b : Option Json) :
    (OldFunctionApp.mcp_entrypoint u now (HttpRequest.mk Method.get b)
        = Except.ok (HttpResponse.mk 200 OldFunctionApp._build_capabilities))
  ∧ (declaredCount OldFunctionApp._build_capabilities "tools" = some 2)
  ∧ (declaredToolNames OldFunctionApp._build_capabilities
        = some [some (Json.str "health_check"), some (Json.str "nagoya_weather")])
  ∧ (declaredToolProperties OldFunctionApp._build_capabilities
        = some [some (Json.obj []), some (Json.obj [])])
  ∧ (declaredCount OldFunctionApp._build_capabilities "resources" = some 1)
  ∧ (OldFunctionApp._build_capabilities.lookup "resources"
        = some (Json.arr [Json.obj [("name", Json.str "musashi_message"),
            ("uri", Json.str OldFunctionApp.RESOURCE_URI),
            ("description", Json.str "回答時に準拠する企業メッセージ。"),
            ("mimeType", Json.str "text/html")]]))
  ∧ (declaredCount OldFunctionApp._build_capabilities "prompts" = some 1)
  ∧ (usageEntry OldFunctionApp._build_capabilities "invoke"
        = some (Json.obj [("method", Json.str "POST"), ("route", Json.str "/api/mcp"),
            ("body", Json.obj [("tool", Json.str "tool name"), ("arguments", Json.obj [])])]))
  ∧ (usageEntry OldFunctionApp._build_capabilities "discovery"
        = some (Json.obj [("method", Json.str "GET"), ("route", Json.str "/api/mcp")])) :=
  ⟨rfl, rfl, rfl, rfl, rfl, rfl, rfl, rfl, rfl⟩

/-- C10 counterexample: with both `publicTime` and `publicTimeFormatted`
present but equal to the falsy empty string, the ok result's `updated_at`
is the empty string, not null as the claim states for the
both-fields-falsy case. -/
theorem claim_C10_counterexample :
    (FunctionApp._fetch_nagoya_weather (Upstream.body (Json.obj
        [("forecasts", Json.arr [Json.obj []]),
         ("publicTime", Json.str ""), ("publicTimeFormatted", Json.str "")]))
      = Except.ok (Json.obj [("tool", Json.str "nagoya_weather"), ("status", Json.str "ok"),
          ("city", Json.str "名古屋"), ("weather", Json.str "天気不明"),
          ("updated_at", Json.str ""), ("source", Json.str FunctionApp.WEATHER_ENDPOINT)]))
  ∧ Json.str "" ≠ Json.null := by
  refine ⟨rfl, ?_⟩
  simp

/-- C10 (amended): the fallback chains treat any falsy value as absent:
when the resolved detail object's `weather` is falsy (e.g. an empty
string, or `detail` null so the object is empty), the weather falls
through to `telop` and then to "天気不明"; the ok result always contains the
`updated_at` key, whose value is `publicTime` when truthy and otherwise
the raw `publicTimeFormatted` value (null when that key is absent or null
— but its own falsy non-null values, such as "", are passed through). -/
theorem claim_C10_falsy_fallback (pl ft dt : List (String × Json)) (rest : List Json)
    (hf : assocLast pl "forecasts" = some (Json.arr (Json.obj ft :: rest)))
    (hd : pyOr (Option.getD (assocLast ft "detail") Json.null) (Json.obj []) = Json.obj dt)
    (hw : (Option.getD (assocLast dt "weather") Json.null).truthy = false) :
    ∃ r, FunctionApp._fetch_nagoya_weather (Upstream.body (Json.obj pl)) = Except.ok r
      ∧ r.lookup "weather"
          = some (pyOr (Option.getD (assocLast ft "telop") Json.null) (Json.str "天気不明"))
      ∧ r.hasKey "updated_at" = true
      ∧ r.lookup "updated_at"
          = some (if (Option.getD (assocLast pl "publicTime") Json.null).truthy
              then Option.getD (assocLast pl "publicTime") Json.null
              else Option.getD (assocLast pl "publicTimeFormatted") Json.null) := by
  refine ⟨_, fetch_success_eq pl ft dt rest hf hd, ?_, rfl, ?_⟩
  · have h2 : resolveWeather ft dt
        = pyOr (Option.getD (assocLast ft "telop") Json.null) (Json.str "天気不明") := by
      simp [resolveWeather, hw, pyOr]
    simp [Json.lookup, assocLast, h2]
  · rfl

theorem claim_C10_witness :
    ∃ r, FunctionApp._fetch_nagoya_weather (Upstream.body (Json.obj
          [("forecasts", Json.arr [Json.obj [("telop", Json.str "曇り")]])])) = Except.ok r
      ∧ r.lookup "weather"
          = some (pyOr (Option.getD (assocLast [("telop", Json.str "曇り")] "telop") Json.null)
              (Json.str "天気不明"))
      ∧ r.hasKey "updated_at" = true
      ∧ r.lookup "updated_at"
          = some (if (Option.getD (assocLast
                  [("forecasts", Json.arr [Json.obj [("telop", Json.str "曇り")]])] "publicTime")
                  Json.null).truthy
              then Option.getD (assocLast
                  [("forecasts", Json.arr [Json.obj [("telop", Json.str "曇り")]])] "publicTime")
                  Json.null
              else Option.getD (assocLast
                  [("forecasts", Json.arr [Json.obj [("telop", Json.str "曇り")]])]
                  "publicTimeFormatted") Json.null) :=
  claim_C10_falsy_fallback
    [("forecasts", Json.arr [Json.obj [("telop", Json.str "曇り")]])]
    [("telop", Json.str "曇り")] [] [] rfl rfl rfl
